import Mathlib

/-!
Shallow embedding of `dns_packet/dns_struct.py` (class `dns_struct`) and
verification of the specification's claims about it.

Modelling conventions:
* A Python byte string (the raw packet `data` / `message`) is a `List Nat`
  whose entries are byte values (`ord` of each character, always < 256 in
  the source, since Python 2 `str` iterates to single-byte characters).
* Python exceptions raised by the source (`struct.error`, `TypeError`,
  `StandardError`, `binascii.Error`) are modelled as an `Except`-style
  error result `DnsErr`; the constructors `truncated` and `compressionLoop`
  are the error vocabulary used by the specification and are included so
  that claims mentioning them can be stated (the source never produces
  them).
* The source's `decode_labels` recurses through compression pointers with
  no bound, so the embedding takes a `fuel` argument that decreases on
  every loop iteration and every pointer jump; a result of `none` means
  the fuel ran out.  An execution of the source diverges at an input
  exactly when no amount of fuel produces a `some` result, because each
  loop iteration of the source performs a bounded amount of work.
-/

namespace DnsStruct

/-- Error/exception outcomes of the embedded Python code.  `structError`
models `struct.error` (raised by `struct.unpack` / `unpack_from` on a
too-short buffer), `typeError` models Python's `TypeError`,
`invalidLabelEncoding` models `raise StandardError("unknown label
encoding")` in `decode_labels` (the failure the specification names
`Error::InvalidLabelEncoding`), `binasciiError` models `binascii.Error`.
`truncated` and `compressionLoop` are the specification's
`Error::Truncated` and `Error::CompressionLoop`; no function of the
source produces them. -/
inductive DnsErr where
  | structError
  | typeError
  | invalidLabelEncoding
  | binasciiError
  | truncated
  | compressionLoop

/-- Python slice `data[i:j]` (for `0 ≤ i ≤ j`) on a byte string. -/
def pySlice (data : List Nat) (i j : Nat) : List Nat :=
  (data.drop i).take (j - i)

/-- Python slice `s[i:j]` on a text string. -/
def strSlice (s : String) (i j : Nat) : String :=
  String.mk ((s.toList.drop i).take (j - i))

/-- Python `s.strip()`: remove leading and trailing whitespace. -/
def pyStrip (s : String) : String :=
  String.mk (((s.toList.dropWhile Char.isWhitespace).reverse.dropWhile
    Char.isWhitespace).reverse)

/-- Model of `struct.unpack('!H', s)[0]`: requires exactly two bytes,
otherwise `struct.error` is raised. -/
def unpackH (s : List Nat) : Except DnsErr Nat :=
  match s with
  | [a, b] => .ok (a * 256 + b)
  | _ => .error .structError

/-- Model of `struct.unpack('!B', s)[0]`: requires exactly one byte. -/
def unpackB (s : List Nat) : Except DnsErr Nat :=
  match s with
  | [a] => .ok a
  | _ => .error .structError

/-- Model of `struct.unpack_from("!B", message, offset)[0]`: one byte at
`offset`; `struct.error` if fewer than one byte remains. -/
def unpackFromB (message : List Nat) (offset : Nat) : Except DnsErr Nat :=
  if offset + 1 ≤ message.length then .ok (message.getD offset 0)
  else .error .structError

/-- Model of `struct.unpack_from("!H", message, offset)[0]`: big-endian
16-bit read at `offset`. -/
def unpackFromH (message : List Nat) (offset : Nat) : Except DnsErr Nat :=
  if offset + 2 ≤ message.length then
    .ok (message.getD offset 0 * 256 + message.getD (offset + 1) 0)
  else .error .structError

/-- Model of `struct.unpack_from("!%ds" % n, message, offset)[0]`: the
`n` raw bytes starting at `offset`. -/
def unpackFromS (message : List Nat) (offset n : Nat) : Except DnsErr (List Nat) :=
  if offset + n ≤ message.length then .ok ((message.drop offset).take n)
  else .error .structError

/-- Model of `_DNS_QUERY_SECTION_FORMAT.unpack_from(message, offset)`,
where `_DNS_QUERY_SECTION_FORMAT = struct.Struct("!2H")` (size 4). -/
def unpackFrom2H (message : List Nat) (offset : Nat) : Except DnsErr (Nat × Nat) :=
  if offset + 4 ≤ message.length then
    .ok (message.getD offset 0 * 256 + message.getD (offset + 1) 0,
         message.getD (offset + 2) 0 * 256 + message.getD (offset + 3) 0)
  else .error .structError

/-- Source `byte_to_binary(n)`:
`''.join(str((n & (1 << i)) and 1) for i in reversed(range(8)))`. -/
def byte_to_binary (n : Nat) : String :=
  String.join (((List.range 8).reverse).map
    (fun i => if n &&& (1 <<< i) == 0 then "0" else "1"))

/-- One uppercase hexadecimal digit, as produced by Python's `"%X"`
formatting for values 0–15 (the only values passed in, namely `x / 16 %
16` and `x % 16`). -/
def hexDigit (n : Nat) : Char :=
  match n with
  | 0 => '0' | 1 => '1' | 2 => '2' | 3 => '3' | 4 => '4'
  | 5 => '5' | 6 => '6' | 7 => '7' | 8 => '8' | 9 => '9'
  | 10 => 'A' | 11 => 'B' | 12 => 'C' | 13 => 'D' | 14 => 'E'
  | _ => 'F'

/-- Python `"%02X" % x` for a byte value `x` (every value formatted by
the source is an `ord` of a byte-string character, hence < 256, for
which `%02X` yields exactly two uppercase hex digits). -/
def byteToHexPair (x : Nat) : String :=
  String.mk [hexDigit (x / 16 % 16), hexDigit (x % 16)]

/-- Source `byte_to_hex(byteStr)`:
`''.join(["%02X " % ord(x) for x in byteStr]).strip()`. -/
def byte_to_hex (byteStr : List Nat) : String :=
  pyStrip (String.join (byteStr.map (fun x => byteToHexPair x ++ " ")))

/-- Numeric value of one hexadecimal digit character (either case), as
accepted by `binascii.unhexlify`. -/
def hexVal (c : Char) : Option Nat :=
  if '0' ≤ c ∧ c ≤ '9' then some (c.toNat - ('0').toNat)
  else if 'a' ≤ c ∧ c ≤ 'f' then some (c.toNat - ('a').toNat + 10)
  else if 'A' ≤ c ∧ c ≤ 'F' then some (c.toNat - ('A').toNat + 10)
  else none

/-- Model of `binascii.unhexlify`: pairs of hex digits to bytes; `none`
models the `binascii.Error` raised on odd length or a non-hex digit. -/
def unhexlify : List Char → Option (List Nat)
  | [] => some []
  | c1 :: c2 :: rest =>
    match hexVal c1, hexVal c2 with
    | some v1, some v2 =>
      match unhexlify rest with
      | some bs => some ((16 * v1 + v2) :: bs)
      | none => none
    | _, _ => none
  | [_] => none

/-- Source `hex_to_binary(h)`:
`''.join(self.byte_to_binary(ord(b)) for b in binascii.unhexlify(h))`. -/
def hex_to_binary (h : String) : Option String :=
  (unhexlify h.toList).map
    (fun bytes => String.join (bytes.map (fun b => byte_to_binary b)))

/-- Fields returned by `_unpack_dns_upper_codes` (bit substrings of the
byte's 8-character binary representation). -/
structure UpperCodes where
  qr : String
  opcode : String
  aa : String
  tc : String
  rd : String

/-- Source `_unpack_dns_upper_codes(byte)`. -/
def _unpack_dns_upper_codes (byte : List Nat) : Except DnsErr UpperCodes :=
  match hex_to_binary (byte_to_hex byte) with
  | none => .error .binasciiError
  | some data =>
    .ok ⟨strSlice data 0 1, strSlice data 1 5, strSlice data 5 6,
         strSlice data 6 7, strSlice data 7 8⟩

/-- Fields returned by `_unpack_dns_lower_codes`. -/
structure LowerCodes where
  ra : String
  z : String
  ad : String
  cd : String
  rc : String

/-- Source `_unpack_dns_lower_codes(byte)`. -/
def _unpack_dns_lower_codes (byte : List Nat) : Except DnsErr LowerCodes :=
  match hex_to_binary (byte_to_hex byte) with
  | none => .error .binasciiError
  | some data =>
    .ok ⟨strSlice data 0 1, strSlice data 1 2, strSlice data 2 3,
         strSlice data 3 4, strSlice data 4 8⟩

/-- Numeric value of a binary bit-string such as the ones produced by
`byte_to_binary`; used only to state claims that read the extracted
bit-strings as numbers. -/
def binStrToNat (s : String) : Nat :=
  s.toList.foldl (fun acc c => 2 * acc + (if c == '1' then 1 else 0)) 0

/-- Header fields returned by `_upack_dns_codes`. -/
structure DnsCounts where
  identification : Nat
  total_questions : Nat
  total_answers_rr : Nat
  total_authority_rr : Nat
  total_additional_rr : Nat

/-- Source `_upack_dns_codes(data)`.  The intermediate `lower_byte` and
`upper_byte` unpacks are kept because their `struct.error` behaviour on a
short buffer is observable even though their values are unused. -/
def _upack_dns_codes (data : List Nat) : Except DnsErr DnsCounts :=
  match unpackH (pySlice data 8 10) with
  | .error e => .error e
  | .ok identification =>
    match unpackB (pySlice data 10 11) with
    | .error e => .error e
    | .ok _lower_byte =>
      match unpackB (pySlice data 11 12) with
      | .error e => .error e
      | .ok _upper_byte =>
        match unpackH (pySlice data 12 14) with
        | .error e => .error e
        | .ok total_questions =>
          match unpackH (pySlice data 14 16) with
          | .error e => .error e
          | .ok total_answers_rr =>
            match unpackH (pySlice data 16 18) with
            | .error e => .error e
            | .ok total_authority_rr =>
              match unpackH (pySlice data 18 20) with
              | .error e => .error e
              | .ok total_additional_rr =>
                .ok ⟨identification, total_questions, total_answers_rr,
                     total_authority_rr, total_additional_rr⟩

/-- A Python value that is either a text string or an integer; needed to
model `_check_dns_rr_pointer`, which compares a string slice with the
integer `1`. -/
inductive PyVal where
  | pystr (s : String)
  | pyint (n : Nat)

/-- Python `==` between two values: equal only when the types match and
the contents are equal; a `str` never equals an `int`. -/
def pyEq : PyVal → PyVal → Bool
  | .pystr a, .pystr b => a == b
  | .pyint a, .pyint b => a == b
  | _, _ => false

/-- Source `_check_dns_rr_pointer(byte)`: hexlify then binarify the byte
and test `data[0:1] == 1 and data[1:2] == 1` — a comparison of a string
slice against the integer `1`. -/
def _check_dns_rr_pointer (byte : List Nat) : Except DnsErr Bool :=
  match hex_to_binary (byte_to_hex byte) with
  | none => .error .binasciiError
  | some data =>
    .ok (pyEq (.pystr (strSlice data 0 1)) (.pyint 1) &&
         pyEq (.pystr (strSlice data 1 2)) (.pyint 1))

/-- Source `_decode_rr_pointer(data, offset)`: hexlify/binarify the two
bytes at `offset` and print the result; falls through returning `None`. -/
def _decode_rr_pointer (data : List Nat) (offset : Nat) : Except DnsErr Unit :=
  match hex_to_binary (byte_to_hex (pySlice data offset (offset + 2))) with
  | none => .error .binasciiError
  | some _octet => .ok ()

/-- Loop body of the source's `decode_labels(message, offset)`, with the
local mutable `labels` list as an accumulator argument and `fuel`
decreasing on every loop iteration and pointer jump.  In the compression-
pointer branch, the source line
`return labels + self.decode_labels(message, pointer & 0x3FFF), offset`
concatenates the list `labels` with the *tuple* returned by the recursive
call, which raises `TypeError` once the recursive call returns; that is
modelled by returning `typeError` when the recursive call succeeds
(the recursive call's own exception, or divergence, happens first and
propagates). -/
def decode_labels_loop (fuel : Nat) (message : List Nat) (offset : Nat)
    (labels : List (List Nat)) :
    Option (Except DnsErr (List (List Nat) × Nat)) :=
  match fuel with
  | 0 => none
  | f + 1 =>
    match unpackFromB message offset with
    | .error e => some (.error e)
    | .ok length =>
      if length &&& 0xC0 == 0xC0 then
        match unpackFromH message offset with
        | .error e => some (.error e)
        | .ok pointer =>
          match decode_labels_loop f message (pointer &&& 0x3FFF) [] with
          | none => none
          | some (.error e) => some (.error e)
          | some (.ok _) => some (.error .typeError)
      else if length &&& 0xC0 != 0x00 then
        some (.error .invalidLabelEncoding)
      else if length == 0 then
        some (.ok (labels, offset + 1))
      else
        match unpackFromS message (offset + 1) length with
        | .error e => some (.error e)
        | .ok lab => decode_labels_loop f message (offset + 1 + length) (labels ++ [lab])

/-- Source `decode_labels(message, offset)` (the local `labels` list
starts empty). -/
def decode_labels (fuel : Nat) (message : List Nat) (offset : Nat) :
    Option (Except DnsErr (List (List Nat) × Nat)) :=
  decode_labels_loop fuel message offset []

/-- A question entry as built by `decode_question_section`. -/
structure Question where
  domain_name : List (List Nat)
  query_type : Nat
  query_class : Nat

/-- Loop body of `decode_question_section` with the `questions` list as
an accumulator; iterates `qdcount` times. -/
def decode_question_section_loop (fuel : Nat) (message : List Nat)
    (offset : Nat) (qdcount : Nat) (questions : List Question) :
    Option (Except DnsErr (List Question × Nat)) :=
  match qdcount with
  | 0 => some (.ok (questions, offset))
  | qd + 1 =>
    match decode_labels fuel message offset with
    | none => none
    | some (.error e) => some (.error e)
    | some (.ok (qname, offset2)) =>
      match unpackFrom2H message offset2 with
      | .error e => some (.error e)
      | .ok (qtype, qclass) =>
        decode_question_section_loop fuel message (offset2 + 4) qd
          (questions ++ [⟨qname, qtype, qclass⟩])

/-- Source `decode_question_section(message, offset, qdcount)`. -/
def decode_question_section (fuel : Nat) (message : List Nat) (offset : Nat)
    (qdcount : Nat) : Option (Except DnsErr (List Question × Nat)) :=
  decode_question_section_loop fuel message offset qdcount []

/-- Loop body of `_decode_rr_name_label(message, offset)` with the
`labels` accumulator; the source's `while True` loop reads a length
octet, stops on zero, otherwise collects the label bytes, with no
pointer handling at all. -/
def _decode_rr_name_label_loop (fuel : Nat) (message : List Nat)
    (offset : Nat) (labels : List (List Nat)) :
    Option (Except DnsErr (List (List Nat) × Nat)) :=
  match fuel with
  | 0 => none
  | f + 1 =>
    match unpackFromB message offset with
    | .error e => some (.error e)
    | .ok length =>
      if length == 0 then some (.ok (labels, offset + 1))
      else
        match unpackFromS message (offset + 1) length with
        | .error e => some (.error e)
        | .ok lab =>
          _decode_rr_name_label_loop f message (offset + 1 + length) (labels ++ [lab])

/-- Source `_decode_rr_name_label(message, offset)`. -/
def _decode_rr_name_label (fuel : Nat) (message : List Nat) (offset : Nat) :
    Option (Except DnsErr (List (List Nat) × Nat)) :=
  _decode_rr_name_label_loop fuel message offset []

/-- Source `_unpack_dns_rr(data, offset, arcount)`: for each of `arcount`
records, test the (always-false) pointer check on the single byte at
`offset` and print the label decode; `offset` is never advanced between
iterations and the function returns `None`. -/
def _unpack_dns_rr (fuel : Nat) (data : List Nat) (offset : Nat)
    (arcount : Nat) : Option (Except DnsErr Unit) :=
  match arcount with
  | 0 => some (.ok ())
  | n + 1 =>
    match _check_dns_rr_pointer (pySlice data offset (offset + 1)) with
    | .error e => some (.error e)
    | .ok name_pointer =>
      if name_pointer then
        match _decode_rr_pointer data offset with
        | .error e => some (.error e)
        | .ok _ => _unpack_dns_rr fuel data offset n
      else
        match _decode_rr_name_label fuel data offset with
        | none => none
        | some (.error e) => some (.error e)
        | some (.ok _) => _unpack_dns_rr fuel data offset n

/-- The dictionary returned by `unpack_dns`: the merge (over disjoint
keys) of the lower-codes dict, the upper-codes dict and the counts dict.
The decoded questions are computed but never stored in the result — the
source drops `dns_questions` after using `question_offset`. -/
structure DnsDict where
  lower : LowerCodes
  upper : UpperCodes
  counts : DnsCounts

/-- Source `unpack_dns(data)`. -/
def unpack_dns (fuel : Nat) (data : List Nat) : Option (Except DnsErr DnsDict) :=
  match _unpack_dns_lower_codes (pySlice data 10 11) with
  | .error e => some (.error e)
  | .ok lower_dict =>
    match _unpack_dns_upper_codes (pySlice data 11 12) with
    | .error e => some (.error e)
    | .ok uper_dict =>
      match _upack_dns_codes data with
      | .error e => some (.error e)
      | .ok dns_data =>
        match decode_question_section fuel data 20 dns_data.total_questions with
        | none => none
        | some (.error e) => some (.error e)
        | some (.ok (_dns_questions, question_offset)) =>
          if dns_data.total_answers_rr != 0 then
            match _unpack_dns_rr fuel data question_offset dns_data.total_answers_rr with
            | none => none
            | some (.error e) => some (.error e)
            | some (.ok _) => some (.ok ⟨lower_dict, uper_dict, dns_data⟩)
          else
            some (.ok ⟨lower_dict, uper_dict, dns_data⟩)

/-- Big-endian 16-bit value at index `i` of a buffer, read directly; used
to state claims about which buffer offsets the decoder reads. -/
def be16At (data : List Nat) (i : Nat) : Nat :=
  data.getD i 0 * 256 + data.getD (i + 1) 0

/-- Observation: does a `decode_labels` outcome carry the specification's
`Error::CompressionLoop`? -/
def isCompressionLoopResult :
    Option (Except DnsErr (List (List Nat) × Nat)) → Bool
  | some (.error .compressionLoop) => true
  | _ => false

/-! ## Helper lemmas about the primitives -/

theorem unpackFromB_error {message : List Nat} {offset : Nat} {e : DnsErr}
    (h : unpackFromB message offset = .error e) : e = .structError := by
  unfold unpackFromB at h
  split at h
  · simp at h
  · simpa using h.symm

theorem unpackFromH_error {message : List Nat} {offset : Nat} {e : DnsErr}
    (h : unpackFromH message offset = .error e) : e = .structError := by
  unfold unpackFromH at h
  split at h
  · simp at h
  · simpa using h.symm

theorem unpackFromS_error {message : List Nat} {offset n : Nat} {e : DnsErr}
    (h : unpackFromS message offset n = .error e) : e = .structError := by
  unfold unpackFromS at h
  split at h
  · simp at h
  · simpa using h.symm

theorem unpackH_short {s : List Nat} (h : s.length ≠ 2) :
    unpackH s = .error .structError := by
  rcases s with _ | ⟨a, _ | ⟨b, _ | ⟨c, t⟩⟩⟩
  · rfl
  · rfl
  · simp at h
  · rfl

theorem unpackB_short {s : List Nat} (h : s.length ≠ 1) :
    unpackB s = .error .structError := by
  rcases s with _ | ⟨a, _ | ⟨b, t⟩⟩
  · rfl
  · simp at h
  · rfl

theorem pySlice_length (data : List Nat) (i j : Nat) :
    (pySlice data i j).length = min (j - i) (data.length - i) := by
  simp [pySlice]

/-! ## C1: `decode_labels` on a self-referential compression pointer -/

/-- Claim C1: the specification asserts that name decoding terminates for
every buffer and offset, including cyclic pointer chains.  The source
violates this: on the two-byte buffer `C0 00` (a compression pointer at
offset 0 whose 14-bit target is offset 0) `decode_labels` calls itself
forever.  In the fuel model: no amount of fuel yields a result. -/
theorem decode_labels_self_pointer_diverges (fuel : Nat) :
    decode_labels fuel [0xC0, 0x00] 0 = none := by
  induction fuel with
  | zero => rfl
  | succ f ih =>
    have step : decode_labels (f + 1) [0xC0, 0x00] 0 =
        (match decode_labels f [0xC0, 0x00] 0 with
          | none => none
          | some (.error e) => some (.error e)
          | some (.ok _) => some (.error .typeError)) := rfl
    rw [step, ih]

/-! ## C2: the source never produces `Error::CompressionLoop` -/

theorem decode_labels_loop_no_compression_loop (fuel : Nat) :
    ∀ (message : List Nat) (offset : Nat) (labels : List (List Nat)),
      isCompressionLoopResult (decode_labels_loop fuel message offset labels)
        = false := by
  induction fuel with
  | zero => intro message offset labels; rfl
  | succ f ih =>
    intro message offset labels
    rw [decode_labels_loop]
    cases hB : unpackFromB message offset with
    | error e => rw [unpackFromB_error hB]; rfl
    | ok length =>
      dsimp only
      by_cases hp : (length &&& 0xC0 == 0xC0) = true
      · rw [if_pos hp]
        cases hH : unpackFromH message offset with
        | error e => rw [unpackFromH_error hH]; rfl
        | ok pointer =>
          dsimp only
          have hrec := ih message (pointer &&& 0x3FFF) []
          cases hr : decode_labels_loop f message (pointer &&& 0x3FFF) [] with
          | none => rfl
          | some r =>
            cases r with
            | error e => rw [hr] at hrec; exact hrec
            | ok v => rfl
      · rw [if_neg hp]
        by_cases hq : (length &&& 0xC0 != 0x00) = true
        · rw [if_pos hq]; rfl
        · rw [if_neg hq]
          by_cases hz : (length == 0) = true
          · rw [if_pos hz]; rfl
          · rw [if_neg hz]
            cases hS : unpackFromS message (offset + 1) length with
            | error e => rw [unpackFromS_error hS]; rfl
            | ok lab => exact ih message (offset + 1 + length) (labels ++ [lab])

/-- Claim C2: the specification asserts that a pointer whose 14-bit target
is ≥ its own offset makes the decode fail with `Error::CompressionLoop`.
The source has no such check: `decode_labels` can never produce that
error, for any buffer, offset or fuel (on the concrete failing input
`C0 00` it instead recurses forever, see C1's theorem). -/
theorem decode_labels_never_compression_loop (fuel : Nat) (message : List Nat)
    (offset : Nat) :
    isCompressionLoopResult (decode_labels fuel message offset) = false :=
  decode_labels_loop_no_compression_loop fuel message offset []

/-! ## C3: reserved label tags `01`/`10` raise the invalid-encoding error -/

/-- Claim C3: whenever the length octet read at `offset` has top two bits
`01` or `10`, `decode_labels` fails with the error the specification
names `Error::InvalidLabelEncoding` (the source raises
`StandardError("unknown label encoding")`). -/
theorem decode_labels_reserved_tag_invalid (fuel : Nat) (message : List Nat)
    (offset : Nat) (b : Nat) (hb : unpackFromB message offset = .ok b)
    (htag : b &&& 0xC0 = 0x40 ∨ b &&& 0xC0 = 0x80) :
    decode_labels (fuel + 1) message offset =
      some (.error .invalidLabelEncoding) := by
  show decode_labels_loop (fuel + 1) message offset [] = _
  rw [decode_labels_loop, hb]
  rcases htag with h | h <;> simp [h]

theorem decode_labels_reserved_tag_invalid_witness :
    unpackFromB [0x40] 0 = .ok 0x40 ∧
    decode_labels 5 [0x40] 0 = some (.error .invalidLabelEncoding) :=
  ⟨rfl, decode_labels_reserved_tag_invalid 4 [0x40] 0 0x40 rfl (Or.inl rfl)⟩

/-! ## C4: pointer-to-offset-12 name raises `TypeError` in the source -/

/-- Claim C4 is violated by the source: with `[7]example[3]com[0]`
literally encoded at offset 12 and a 2-byte pointer `C0 0C` at offset 25,
`decode_labels` at offset 25 does not return the target's label sequence
with next offset 27 — the line
`return labels + self.decode_labels(message, pointer & 0x3FFF), offset`
concatenates a list with a tuple and raises `TypeError`. -/
theorem decode_labels_pointer_raises_type_error :
    decode_labels 40 (List.replicate 12 0 ++
      [7, 101, 120, 97, 109, 112, 108, 101, 3, 99, 111, 109, 0, 0xC0, 0x0C])
      25 = some (.error .typeError) := by rfl

/-! ## C5: the example.com question section decodes as specified -/

/-- Claim C5: with the name `[7]example[3]com[0]` at offset 12 followed by
QTYPE=1 and QCLASS=1, `decode_question_section` with count 1 returns one
question `{domain_name: ["example","com"], query_type: 1,
query_class: 1}` and next offset 29 (labels are byte strings: `example` =
`[101,120,97,109,112,108,101]`, `com` = `[99,111,109]`). -/
theorem decode_question_section_example :
    decode_question_section 40 (List.replicate 12 0 ++
      [7, 101, 120, 97, 109, 112, 108, 101, 3, 99, 111, 109, 0, 0, 1, 0, 1])
      12 1 =
      some (.ok ([⟨[[101, 120, 97, 109, 112, 108, 101], [99, 111, 109]],
        1, 1⟩], 29)) := by rfl

/-! ## C6: bit-exact header flag extraction for byte 0x81 -/

/-- Claim C6: `_unpack_dns_upper_codes` on the byte `0x81` (binary
`10000001`) extracts QR=`"1"`, OPCODE=`"0000"`, AA=`"0"`, TC=`"0"`,
RD=`"1"`, whose numeric values are 1, 0, 0, 0, 1. -/
theorem upper_codes_bit_exact_0x81 :
    _unpack_dns_upper_codes [0x81] = .ok ⟨"1", "0000", "0", "0", "1"⟩ ∧
    binStrToNat "1" = 1 ∧ binStrToNat "0000" = 0 :=
  ⟨rfl, rfl, rfl⟩

/-! ## C7: a short buffer makes `_upack_dns_codes` raise `struct.error` -/

/-- Claim C7 is violated by the source: on every buffer shorter than 12
bytes the header decode does not return the value `Error::Truncated` —
`struct.unpack` raises a `struct.error` exception on the first too-short
field read (`structError` in this embedding, a raised exception, distinct
from the specification's returned `truncated` value). -/
theorem upack_dns_codes_short_buffer (data : List Nat)
    (h : data.length < 12) :
    _upack_dns_codes data = .error .structError := by
  unfold _upack_dns_codes
  by_cases h10 : data.length < 10
  · rw [unpackH_short (by rw [pySlice_length]; omega)]
  · obtain ⟨a, b, hs⟩ := List.length_eq_two.mp
      (show (pySlice data 8 10).length = 2 by rw [pySlice_length]; omega)
    rw [hs]
    by_cases h11 : data.length < 11
    · rw [show unpackH [a, b] = .ok (a * 256 + b) from rfl,
        unpackB_short (by rw [pySlice_length]; omega)]
    · obtain ⟨c, hc⟩ := List.length_eq_one.mp
        (show (pySlice data 10 11).length = 1 by rw [pySlice_length]; omega)
      rw [show unpackH [a, b] = .ok (a * 256 + b) from rfl, hc,
        show unpackB [c] = .ok c from rfl,
        unpackB_short (by rw [pySlice_length]; omega)]

theorem upack_dns_codes_short_buffer_witness :
    ([] : List Nat).length < 12 ∧
    _upack_dns_codes [] = .error .structError :=
  ⟨by decide, upack_dns_codes_short_buffer [] (by decide)⟩

/-! ## The hexlify/unhexlify round trip performed by the bit extractors -/

theorem hexDigit_not_whitespace (k : Nat) (h : k < 16) :
    (hexDigit k).isWhitespace = false := by
  interval_cases k <;> rfl

theorem hexVal_hexDigit (k : Nat) (h : k < 16) :
    hexVal (hexDigit k) = some k := by
  interval_cases k <;> rfl

theorem string_join_singleton (s : String) : String.join [s] = s := by
  cases s
  rfl

theorem pyStrip_pair_space (c1 c2 : Char) (h1 : c1.isWhitespace = false)
    (h2 : c2.isWhitespace = false) :
    pyStrip (String.mk [c1, c2, ' ']) = String.mk [c1, c2] := by
  have hsp : (' ').isWhitespace = true := rfl
  simp [pyStrip, List.dropWhile_cons, h1, h2, hsp]

theorem byte_to_hex_single (x : Nat) :
    byte_to_hex [x] = String.mk [hexDigit (x / 16 % 16), hexDigit (x % 16)] := by
  have h1 : (hexDigit (x / 16 % 16)).isWhitespace = false :=
    hexDigit_not_whitespace _ (Nat.mod_lt _ (by norm_num))
  have h2 : (hexDigit (x % 16)).isWhitespace = false :=
    hexDigit_not_whitespace _ (Nat.mod_lt _ (by norm_num))
  show pyStrip (String.join [byteToHexPair x ++ " "]) = _
  rw [string_join_singleton]
  show pyStrip (String.mk [hexDigit (x / 16 % 16), hexDigit (x % 16), ' ']) = _
  exact pyStrip_pair_space _ _ h1 h2

theorem unhexlify_pair {c1 c2 : Char} {v1 v2 : Nat}
    (h1 : hexVal c1 = some v1) (h2 : hexVal c2 = some v2) :
    unhexlify [c1, c2] = some [16 * v1 + v2] := by
  simp [unhexlify, h1, h2]

theorem hex_to_binary_byte_to_hex (x : Nat) :
    hex_to_binary (byte_to_hex [x]) =
      some (byte_to_binary (16 * (x / 16 % 16) + x % 16)) := by
  rw [byte_to_hex_single]
  have hu : unhexlify [hexDigit (x / 16 % 16), hexDigit (x % 16)] =
      some [16 * (x / 16 % 16) + x % 16] :=
    unhexlify_pair (hexVal_hexDigit _ (Nat.mod_lt _ (by norm_num)))
      (hexVal_hexDigit _ (Nat.mod_lt _ (by norm_num)))
  show hex_to_binary (String.mk [hexDigit (x / 16 % 16), hexDigit (x % 16)]) = _
  unfold hex_to_binary
  rw [show (String.mk [hexDigit (x / 16 % 16), hexDigit (x % 16)]).toList =
    [hexDigit (x / 16 % 16), hexDigit (x % 16)] from rfl, hu]
  simp [string_join_singleton]

/-! ## C8: the pointer-vs-label check is always false -/

/-- Claim C8: `_check_dns_rr_pointer` returns `False` on every single-byte
input, including pointer-tagged bytes (top bits `11`), because it
compares the string slices `data[0:1]` and `data[1:2]` against the
integer `1`, and a Python `str` never equals an `int`. -/
theorem check_dns_rr_pointer_always_false (b : Nat) (_hb : b < 256) :
    _check_dns_rr_pointer [b] = .ok false := by
  unfold _check_dns_rr_pointer
  rw [hex_to_binary_byte_to_hex]
  rfl

theorem check_dns_rr_pointer_always_false_witness :
    0xC0 < 256 ∧ _check_dns_rr_pointer [0xC0] = .ok false :=
  ⟨by decide, check_dns_rr_pointer_always_false 0xC0 (by decide)⟩

/-! ## State-threading view of the decoder, for the frame claim C9

The source passes the one buffer object (`data` / `message`) through its
call graph.  To state that decoding never mutates that object, the
functions that receive it are re-expressed below in state-passing form:
each returns, next to its result, the buffer object as it stands after
the call, and each sub-call receives the buffer returned by the previous
one.  Every statement of the source only *reads* the buffer (slicing and
`struct.unpack_from` copy bytes out), so each primitive read leaves the
threaded buffer unchanged; the theorem below proves that therefore the
whole of `unpack_dns` returns the buffer it was given.  Functions that
receive only a fresh slice copy (`byte_to_hex`, `_check_dns_rr_pointer`,
the code extractors) are kept pure: a mutation of a copy could not touch
the caller's buffer.
-/

/-- State-threading form of `decode_labels`'s loop. -/
def decode_labels_loop_tr (fuel : Nat) (message : List Nat) (offset : Nat)
    (labels : List (List Nat)) :
    (Option (Except DnsErr (List (List Nat) × Nat))) × List Nat :=
  match fuel with
  | 0 => (none, message)
  | f + 1 =>
    match unpackFromB message offset with
    | .error e => (some (.error e), message)
    | .ok length =>
      if length &&& 0xC0 == 0xC0 then
        match unpackFromH message offset with
        | .error e => (some (.error e), message)
        | .ok pointer =>
          match decode_labels_loop_tr f message (pointer &&& 0x3FFF) [] with
          | (none, m) => (none, m)
          | (some (.error e), m) => (some (.error e), m)
          | (some (.ok _), m) => (some (.error .typeError), m)
      else if length &&& 0xC0 != 0x00 then
        (some (.error .invalidLabelEncoding), message)
      else if length == 0 then
        (some (.ok (labels, offset + 1)), message)
      else
        match unpackFromS message (offset + 1) length with
        | .error e => (some (.error e), message)
        | .ok lab =>
          decode_labels_loop_tr f message (offset + 1 + length) (labels ++ [lab])

/-- State-threading form of `decode_labels`. -/
def decode_labels_tr (fuel : Nat) (message : List Nat) (offset : Nat) :
    (Option (Except DnsErr (List (List Nat) × Nat))) × List Nat :=
  decode_labels_loop_tr fuel message offset []

/-- State-threading form of `decode_question_section`'s loop. -/
def decode_question_section_loop_tr (fuel : Nat) (message : List Nat)
    (offset : Nat) (qdcount : Nat) (questions : List Question) :
    (Option (Except DnsErr (List Question × Nat))) × List Nat :=
  match qdcount with
  | 0 => (some (.ok (questions, offset)), message)
  | qd + 1 =>
    match decode_labels_tr fuel message offset with
    | (none, m) => (none, m)
    | (some (.error e), m) => (some (.error e), m)
    | (some (.ok (qname, offset2)), m) =>
      match unpackFrom2H m offset2 with
      | .error e => (some (.error e), m)
      | .ok (qtype, qclass) =>
        decode_question_section_loop_tr fuel m (offset2 + 4) qd
          (questions ++ [⟨qname, qtype, qclass⟩])

/-- State-threading form of `decode_question_section`. -/
def decode_question_section_tr (fuel : Nat) (message : List Nat)
    (offset : Nat) (qdcount : Nat) :
    (Option (Except DnsErr (List Question × Nat))) × List Nat :=
  decode_question_section_loop_tr fuel message offset qdcount []

/-- State-threading form of `_decode_rr_name_label`'s loop. -/
def _decode_rr_name_label_loop_tr (fuel : Nat) (message : List Nat)
    (offset : Nat) (labels : List (List Nat)) :
    (Option (Except DnsErr (List (List Nat) × Nat))) × List Nat :=
  match fuel with
  | 0 => (none, message)
  | f + 1 =>
    match unpackFromB message offset with
    | .error e => (some (.error e), message)
    | .ok length =>
      if length == 0 then (some (.ok (labels, offset + 1)), message)
      else
        match unpackFromS message (offset + 1) length with
        | .error e => (some (.error e), message)
        | .ok lab =>
          _decode_rr_name_label_loop_tr f message (offset + 1 + length)
            (labels ++ [lab])

/-- State-threading form of `_decode_rr_name_label`. -/
def _decode_rr_name_label_tr (fuel : Nat) (message : List Nat) (offset : Nat) :
    (Option (Except DnsErr (List (List Nat) × Nat))) × List Nat :=
  _decode_rr_name_label_loop_tr fuel message offset []

/-- State-threading form of `_decode_rr_pointer` (it receives the buffer
object and only slices two bytes out of it). -/
def _decode_rr_pointer_tr (data : List Nat) (offset : Nat) :
    (Except DnsErr Unit) × List Nat :=
  match hex_to_binary (byte_to_hex (pySlice data offset (offset + 2))) with
  | none => (.error .binasciiError, data)
  | some _octet => (.ok (), data)

/-- State-threading form of `_unpack_dns_rr`. -/
def _unpack_dns_rr_tr (fuel : Nat) (data : List Nat) (offset : Nat)
    (arcount : Nat) : (Option (Except DnsErr Unit)) × List Nat :=
  match arcount with
  | 0 => (some (.ok ()), data)
  | n + 1 =>
    match _check_dns_rr_pointer (pySlice data offset (offset + 1)) with
    | .error e => (some (.error e), data)
    | .ok name_pointer =>
      if name_pointer then
        match _decode_rr_pointer_tr data offset with
        | (.error e, m) => (some (.error e), m)
        | (.ok _, m) => _unpack_dns_rr_tr fuel m offset n
      else
        match _decode_rr_name_label_tr fuel data offset with
        | (none, m) => (none, m)
        | (some (.error e), m) => (some (.error e), m)
        | (some (.ok _), m) => _unpack_dns_rr_tr fuel m offset n

/-- State-threading form of `unpack_dns`. -/
def unpack_dns_tr (fuel : Nat) (data : List Nat) :
    (Option (Except DnsErr DnsDict)) × List Nat :=
  match _unpack_dns_lower_codes (pySlice data 10 11) with
  | .error e => (some (.error e), data)
  | .ok lower_dict =>
    match _unpack_dns_upper_codes (pySlice data 11 12) with
    | .error e => (some (.error e), data)
    | .ok uper_dict =>
      match _upack_dns_codes data with
      | .error e => (some (.error e), data)
      | .ok dns_data =>
        match decode_question_section_tr fuel data 20 dns_data.total_questions with
        | (none, m) => (none, m)
        | (some (.error e), m) => (some (.error e), m)
        | (some (.ok (_dns_questions, question_offset)), m) =>
          if dns_data.total_answers_rr != 0 then
            match _unpack_dns_rr_tr fuel m question_offset
                dns_data.total_answers_rr with
            | (none, m2) => (none, m2)
            | (some (.error e), m2) => (some (.error e), m2)
            | (some (.ok _), m2) =>
              (some (.ok ⟨lower_dict, uper_dict, dns_data⟩), m2)
          else
            (some (.ok ⟨lower_dict, uper_dict, dns_data⟩), m)

theorem decode_labels_loop_tr_msg (fuel : Nat) :
    ∀ (message : List Nat) (offset : Nat) (labels : List (List Nat)),
      (decode_labels_loop_tr fuel message offset labels).2 = message := by
  induction fuel with
  | zero => intros; rfl
  | succ f ih =>
    intro message offset labels
    rw [decode_labels_loop_tr]
    cases hB : unpackFromB message offset with
    | error e => rfl
    | ok length =>
      dsimp only
      by_cases hp : (length &&& 0xC0 == 0xC0) = true
      · rw [if_pos hp]
        cases hH : unpackFromH message offset with
        | error e => rfl
        | ok pointer =>
          dsimp only
          have hrec := ih message (pointer &&& 0x3FFF) []
          cases hr : decode_labels_loop_tr f message (pointer &&& 0x3FFF) [] with
          | mk r m =>
            rw [hr] at hrec
            replace hrec : m = message := hrec
            cases r with
            | none => exact hrec
            | some x =>
              cases x with
              | error e => exact hrec
              | ok v => exact hrec
      · rw [if_neg hp]
        by_cases hq : (length &&& 0xC0 != 0x00) = true
        · rw [if_pos hq]
        · rw [if_neg hq]
          by_cases hz : (length == 0) = true
          · rw [if_pos hz]
          · rw [if_neg hz]
            cases hS : unpackFromS message (offset + 1) length with
            | error e => rfl
            | ok lab => exact ih message (offset + 1 + length) (labels ++ [lab])

theorem decode_question_section_loop_tr_msg (qdcount : Nat) :
    ∀ (fuel : Nat) (message : List Nat) (offset : Nat)
      (questions : List Question),
      (decode_question_section_loop_tr fuel message offset qdcount
        questions).2 = message := by
  induction qdcount with
  | zero => intros; rfl
  | succ qd ih =>
    intro fuel message offset questions
    rw [decode_question_section_loop_tr]
    have hdl : (decode_labels_tr fuel message offset).2 = message :=
      decode_labels_loop_tr_msg fuel message offset []
    cases hr : decode_labels_tr fuel message offset with
    | mk r m =>
      rw [hr] at hdl
      replace hdl : m = message := hdl
      rw [hdl]
      cases r with
      | none => rfl
      | some x =>
        cases x with
        | error e => rfl
        | ok v =>
          obtain ⟨qname, offset2⟩ := v
          dsimp only
          cases h2 : unpackFrom2H message offset2 with
          | error e => rfl
          | ok p =>
            obtain ⟨qtype, qclass⟩ := p
            exact ih fuel message (offset2 + 4)
              (questions ++ [⟨qname, qtype, qclass⟩])

theorem _decode_rr_name_label_loop_tr_msg (fuel : Nat) :
    ∀ (message : List Nat) (offset : Nat) (labels : List (List Nat)),
      (_decode_rr_name_label_loop_tr fuel message offset labels).2
        = message := by
  induction fuel with
  | zero => intros; rfl
  | succ f ih =>
    intro message offset labels
    rw [_decode_rr_name_label_loop_tr]
    cases hB : unpackFromB message offset with
    | error e => rfl
    | ok length =>
      dsimp only
      by_cases hz : (length == 0) = true
      · rw [if_pos hz]
      · rw [if_neg hz]
        cases hS : unpackFromS message (offset + 1) length with
        | error e => rfl
        | ok lab => exact ih message (offset + 1 + length) (labels ++ [lab])

theorem _unpack_dns_rr_tr_msg (arcount : Nat) :
    ∀ (fuel : Nat) (data : List Nat) (offset : Nat),
      (_unpack_dns_rr_tr fuel data offset arcount).2 = data := by
  induction arcount with
  | zero => intros; rfl
  | succ n ih =>
    intro fuel data offset
    rw [_unpack_dns_rr_tr]
    cases hc : _check_dns_rr_pointer (pySlice data offset (offset + 1)) with
    | error e => rfl
    | ok name_pointer =>
      dsimp only
      by_cases hnp : name_pointer = true
      · rw [if_pos hnp]
        cases hdp : _decode_rr_pointer_tr data offset with
        | mk r m =>
          have hm : m = data := by
            have hpres : (_decode_rr_pointer_tr data offset).2 = data := by
              unfold _decode_rr_pointer_tr
              cases hex_to_binary (byte_to_hex (pySlice data offset
                (offset + 2))) <;> rfl
            rw [hdp] at hpres
            exact hpres
          rw [hm]
          cases r with
          | error e => rfl
          | ok u => exact ih fuel data offset
      · rw [if_neg hnp]
        have hdl : (_decode_rr_name_label_tr fuel data offset).2 = data :=
          _decode_rr_name_label_loop_tr_msg fuel data offset []
        cases hr : _decode_rr_name_label_tr fuel data offset with
        | mk r m =>
          rw [hr] at hdl
          replace hdl : m = data := hdl
          rw [hdl]
          cases r with
          | none => rfl
          | some x =>
            cases x with
            | error e => rfl
            | ok v => exact ih fuel data offset

theorem unpack_dns_tr_msg (fuel : Nat) (data : List Nat) :
    (unpack_dns_tr fuel data).2 = data := by
  unfold unpack_dns_tr
  cases _unpack_dns_lower_codes (pySlice data 10 11) with
  | error e => rfl
  | ok lower_dict =>
    cases _unpack_dns_upper_codes (pySlice data 11 12) with
    | error e => rfl
    | ok uper_dict =>
      cases _upack_dns_codes data with
      | error e => rfl
      | ok dns_data =>
        dsimp only
        have hq : (decode_question_section_tr fuel data 20
            dns_data.total_questions).2 = data :=
          decode_question_section_loop_tr_msg dns_data.total_questions
            fuel data 20 []
        cases hqs : decode_question_section_tr fuel data 20
            dns_data.total_questions with
        | mk r m =>
          rw [hqs] at hq
          replace hq : m = data := hq
          rw [hq]
          cases r with
          | none => rfl
          | some x =>
            cases x with
            | error e => rfl
            | ok v =>
              obtain ⟨_qs, question_offset⟩ := v
              dsimp only
              by_cases ha : (dns_data.total_answers_rr != 0) = true
              · rw [if_pos ha]
                have hrr : (_unpack_dns_rr_tr fuel data question_offset
                    dns_data.total_answers_rr).2 = data :=
                  _unpack_dns_rr_tr_msg dns_data.total_answers_rr fuel
                    data question_offset
                cases hrs : _unpack_dns_rr_tr fuel data question_offset
                    dns_data.total_answers_rr with
                | mk rr m2 =>
                  rw [hrs] at hrr
                  replace hrr : m2 = data := hrr
                  rw [hrr]
                  cases rr with
                  | none => rfl
                  | some y =>
                    cases y with
                    | error e => rfl
                    | ok u => rfl
              · rw [if_neg ha]

/-- Claim C9: decoding never mutates the input buffer.  In the
state-threading view of the source, `unpack_dns` — and each buffer-taking
operation it invokes (`decode_question_section`, `decode_labels`,
`_unpack_dns_rr`, `_decode_rr_name_label`) — returns the buffer object
exactly as it received it, for every input buffer and every fuel. -/
theorem unpack_dns_never_mutates_buffer (fuel : Nat) (data : List Nat) :
    (unpack_dns_tr fuel data).2 = data ∧
    (∀ offset, (decode_labels_tr fuel data offset).2 = data) ∧
    (∀ offset qdcount,
      (decode_question_section_tr fuel data offset qdcount).2 = data) ∧
    (∀ offset, (_decode_rr_name_label_tr fuel data offset).2 = data) ∧
    (∀ offset arcount, (_unpack_dns_rr_tr fuel data offset arcount).2 = data) :=
  ⟨unpack_dns_tr_msg fuel data,
   fun offset => decode_labels_loop_tr_msg fuel data offset [],
   fun offset qdcount =>
     decode_question_section_loop_tr_msg qdcount fuel data offset [],
   fun offset => _decode_rr_name_label_loop_tr_msg fuel data offset [],
   fun offset arcount => _unpack_dns_rr_tr_msg arcount fuel data offset⟩

/-! ## C10: `unpack_dns` treats the header as starting at offset 8 -/

theorem pySlice_one (data : List Nat) (i : Nat) (h : i + 1 ≤ data.length) :
    pySlice data i (i + 1) = [data.getD i 0] := by
  have hi : i < data.length := by omega
  unfold pySlice
  rw [List.drop_eq_getElem_cons hi, Nat.add_sub_cancel_left,
    List.getD_eq_getElem data 0 hi]
  rfl

theorem pySlice_two (data : List Nat) (i : Nat) (h : i + 2 ≤ data.length) :
    pySlice data i (i + 2) = [data.getD i 0, data.getD (i + 1) 0] := by
  have hi : i < data.length := by omega
  have hi1 : i + 1 < data.length := by omega
  unfold pySlice
  rw [List.drop_eq_getElem_cons hi, List.drop_eq_getElem_cons hi1,
    Nat.add_sub_cancel_left, List.getD_eq_getElem data 0 hi,
    List.getD_eq_getElem data 0 hi1]
  rfl

theorem upack_dns_codes_of_length (data : List Nat) (h : 20 ≤ data.length) :
    _upack_dns_codes data = .ok ⟨be16At data 8, be16At data 12,
      be16At data 14, be16At data 16, be16At data 18⟩ := by
  unfold _upack_dns_codes
  rw [pySlice_two data 8 (by omega), pySlice_one data 10 (by omega),
    pySlice_one data 11 (by omega), pySlice_two data 12 (by omega),
    pySlice_two data 14 (by omega), pySlice_two data 16 (by omega),
    pySlice_two data 18 (by omega)]
  rfl

theorem lower_codes_single_ok (x : Nat) :
    ∃ lc, _unpack_dns_lower_codes [x] = .ok lc := by
  unfold _unpack_dns_lower_codes
  rw [hex_to_binary_byte_to_hex]
  exact ⟨_, rfl⟩

theorem upper_codes_single_ok (x : Nat) :
    ∃ uc, _unpack_dns_upper_codes [x] = .ok uc := by
  unfold _unpack_dns_upper_codes
  rw [hex_to_binary_byte_to_hex]
  exact ⟨_, rfl⟩

/-- Claim C10: `unpack_dns` reads the DNS header starting at offset 8
rather than 0 — the identification field comes from bytes 8–10, the two
flag bytes from bytes 10–12, the four section counts from bytes 12–20,
and question decoding starts at offset 20.  Stated over any buffer with
at least 20 bytes: `_upack_dns_codes` returns exactly the big-endian
values at offsets 8/12/14/16/18, a successful `unpack_dns` result carries
those counts and flag fields extracted from the single bytes at indices
10 and 11, and `unpack_dns` mirrors the outcome of
`decode_question_section` run at offset 20 with the count from
offset 12. -/
theorem unpack_dns_header_at_offset_8 (fuel : Nat) (data : List Nat)
    (h : 20 ≤ data.length) :
    _upack_dns_codes data = .ok ⟨be16At data 8, be16At data 12,
      be16At data 14, be16At data 16, be16At data 18⟩ ∧
    (∀ d, unpack_dns fuel data = some (.ok d) →
      d.counts = ⟨be16At data 8, be16At data 12, be16At data 14,
        be16At data 16, be16At data 18⟩ ∧
      _unpack_dns_lower_codes [data.getD 10 0] = .ok d.lower ∧
      _unpack_dns_upper_codes [data.getD 11 0] = .ok d.upper) ∧
    (decode_question_section fuel data 20 (be16At data 12) = none →
      unpack_dns fuel data = none) ∧
    (∀ e, decode_question_section fuel data 20 (be16At data 12) =
        some (.error e) →
      unpack_dns fuel data = some (.error e)) := by
  have hc := upack_dns_codes_of_length data h
  obtain ⟨lc, hlc⟩ := lower_codes_single_ok (data.getD 10 0)
  obtain ⟨uc, huc⟩ := upper_codes_single_ok (data.getD 11 0)
  have hs10 : pySlice data 10 11 = [data.getD 10 0] :=
    pySlice_one data 10 (by omega)
  have hs11 : pySlice data 11 12 = [data.getD 11 0] :=
    pySlice_one data 11 (by omega)
  have hun : unpack_dns fuel data =
      (match decode_question_section fuel data 20 (be16At data 12) with
        | none => none
        | some (.error e) => some (.error e)
        | some (.ok (_qs, question_offset)) =>
          if be16At data 14 != 0 then
            match _unpack_dns_rr fuel data question_offset
                (be16At data 14) with
            | none => none
            | some (.error e) => some (.error e)
            | some (.ok _) => some (.ok ⟨lc, uc, ⟨be16At data 8,
                be16At data 12, be16At data 14, be16At data 16,
                be16At data 18⟩⟩)
          else some (.ok ⟨lc, uc, ⟨be16At data 8, be16At data 12,
            be16At data 14, be16At data 16, be16At data 18⟩⟩)) := by
    unfold unpack_dns
    rw [hs10, hlc, hs11, huc, hc]
  refine ⟨hc, ?_, ?_, ?_⟩
  · intro d hd
    rw [hun] at hd
    cases hq : decode_question_section fuel data 20 (be16At data 12) with
    | none => rw [hq] at hd; simp at hd
    | some r =>
      cases r with
      | error e => rw [hq] at hd; simp at hd
      | ok p =>
        obtain ⟨qs, qoff⟩ := p
        rw [hq] at hd
        dsimp only at hd
        by_cases ha : (be16At data 14 != 0) = true
        · rw [if_pos ha] at hd
          cases hrr : _unpack_dns_rr fuel data qoff (be16At data 14) with
          | none => rw [hrr] at hd; simp at hd
          | some rr =>
            cases rr with
            | error e => rw [hrr] at hd; simp at hd
            | ok u =>
              rw [hrr] at hd
              simp only [Option.some.injEq, Except.ok.injEq] at hd
              rw [← hd]
              exact ⟨rfl, hlc, huc⟩
        · rw [if_neg ha] at hd
          simp only [Option.some.injEq, Except.ok.injEq] at hd
          rw [← hd]
          exact ⟨rfl, hlc, huc⟩
  · intro hq
    rw [hun, hq]
  · intro e hq
    rw [hun, hq]

theorem unpack_dns_header_at_offset_8_witness :
    20 ≤ (List.replicate 20 0 : List Nat).length ∧
    _upack_dns_codes (List.replicate 20 0) =
      .ok ⟨be16At (List.replicate 20 0) 8, be16At (List.replicate 20 0) 12,
        be16At (List.replicate 20 0) 14, be16At (List.replicate 20 0) 16,
        be16At (List.replicate 20 0) 18⟩ :=
  ⟨by decide,
   (unpack_dns_header_at_offset_8 5 (List.replicate 20 0) (by decide)).1⟩

end DnsStruct
